import Mathlib

set_option linter.unusedVariables false

/-!
Verification development for the audio-transcriber-summarizer CLI.

The TypeScript sources (src/transcribe.ts and src/local_types/gpt_models.ts)
are shallowly embedded below.  Pure string utilities become Lean functions on
String / List Char; the while-loops of the orchestration core, which interact
with the filesystem and remote backends, become fuel-indexed recursions over
an abstract filesystem (a predicate on segment indices: index i stands for
the segment file out000.mp3, out001.mp3, ... produced by ffmpeg) and an
abstract transcription oracle (the result the speech backend returns for each
segment).  A fuel-exhausted run returns none, which models non-termination of
the corresponding while-loop; a run that terminates within the given fuel is
independent of any larger fuel.
-/

/-- Does a character match the JavaScript regex metacharacter dot?  In
JavaScript (without the s flag) the dot matches every character except the
four line terminators LF, CR, LINE SEPARATOR and PARAGRAPH SEPARATOR.  This
is the character class used by the regex that splitStringIntoLines builds. -/
def jsDot (c : Char) : Bool :=
  !(c = '\n' || c = '\r' || c = Char.ofNat 0x2028 || c = Char.ofNat 0x2029)

/-- One greedy regex match step: consume up to k further dot-matchable
characters from s, returning the consumed prefix and the rest.  Together with
a first mandatory character this models one match of the quantified dot of
splitStringIntoLines (between 1 and lineLength characters, greedy). -/
def matchOne (k : Nat) (s : List Char) : List Char × List Char :=
  match k, s with
  | 0, rest => ([], rest)
  | _ + 1, [] => ([], [])
  | k + 1, c :: cs =>
    if jsDot c then
      let pr := matchOne k cs
      (c :: pr.1, pr.2)
    else ([], c :: cs)

/-- Global regex matching of the pattern used by splitStringIntoLines: scan
the input left to right; at each position where the dot matches, emit a
greedy match of at most n characters and resume after it; positions where
the dot does not match are skipped, exactly as String.prototype.match with
the g flag does.  The fuel argument bounds the scan; fuel equal to the input
length always suffices because every step consumes at least one character. -/
def jsGlobalMatchAux (n : Nat) : Nat → List Char → List (List Char)
  | 0, _ => []
  | _ + 1, [] => []
  | fuel + 1, c :: cs =>
    if jsDot c then
      let pr := matchOne (n - 1) cs
      (c :: pr.1) :: jsGlobalMatchAux n fuel pr.2
    else
      jsGlobalMatchAux n fuel cs

/-- All matches of the line-wrapping regex against the full input. -/
def jsGlobalMatch (n : Nat) (s : List Char) : List (List Char) :=
  jsGlobalMatchAux n s.length s

/-- The array of lines computed inside splitStringIntoLines, that is the
result of inputString.match applied to the wrapping regex.  JavaScript
returns null when there is no match at all; this is modelled by none, and
the subsequent lines.join then throws a TypeError. -/
def wrappedLines (inputString : String) (lineLength : Nat) : Option (List String) :=
  match jsGlobalMatch lineLength inputString.data with
  | [] => none
  | l :: rest => some ((l :: rest).map String.mk)

/-- splitStringIntoLines from src/transcribe.ts: match the input against the
regex of one-to-lineLength dot characters (global), then join the matches
with a newline.  none models the TypeError thrown when match returned null. -/
def splitStringIntoLines (inputString : String) (lineLength : Nat) : Option String :=
  (wrappedLines inputString lineLength).map (String.intercalate "\n")

/-- JavaScript String.prototype.toLowerCase as used on the model alias; the
aliases compared against are ASCII, and on ASCII input the JavaScript
function agrees with mapping Char.toLower over the characters. -/
def toLowerCase (s : String) : String :=
  String.mk (s.data.map Char.toLower)

/-- The ChatModel enum from src/local_types/gpt_models.ts. -/
inductive ChatModel where
  | GPT3_5 : ChatModel
  | GPT4 : ChatModel

/-- The canonical backend identifier carried by each ChatModel enum case. -/
def ChatModel.value : ChatModel → String
  | .GPT3_5 => "gpt-3.5-turbo"
  | .GPT4 => "gpt-4"

/-- getChatModelFromString from src/local_types/gpt_models.ts: switch on the
lowercased alias; unknown aliases throw, modelled as Except.error carrying
the thrown message. -/
def getChatModelFromString (chatModelStr : String) : Except String ChatModel :=
  match toLowerCase chatModelStr with
  | "gpt3_5" => Except.ok ChatModel.GPT3_5
  | "gpt4" => Except.ok ChatModel.GPT4
  | _ => Except.error ("Unsupported GPT model \"" ++ chatModelStr ++ "\"")

/-- JavaScript String.prototype.padStart with a pad character: prepend copies
of the pad character until the target length is reached; strings already at
least that long are returned unchanged. -/
def padStart (s : String) (targetLength : Nat) (padChar : Char) : String :=
  String.mk (List.replicate (targetLength - s.data.length) padChar ++ s.data)

/-- The name of the i-th ffmpeg output segment, out000.mp3, out001.mp3, ...:
the template string out + String(i).padStart(3, zero) + .mp3 used throughout
src/transcribe.ts. -/
def segmentFileName (i : Nat) : String :=
  "out" ++ padStart (toString i) 3 '0' ++ ".mp3"

/-- Replace the first occurrence of a pattern in a character list, as
JavaScript String.prototype.replace does with a string pattern; when the
pattern does not occur the list is returned unchanged. -/
def replaceFirstAux (pat repl : List Char) : List Char → List Char
  | [] => if pat.isEmpty then repl else []
  | c :: cs =>
    if pat.isPrefixOf (c :: cs) then repl ++ (c :: cs).drop pat.length
    else c :: replaceFirstAux pat repl cs

/-- JavaScript String.prototype.replace with a plain string pattern. -/
def replaceFirst (s pat repl : String) : String :=
  String.mk (replaceFirstAux pat.data repl.data s.data)

/-- The transcript artifact name derived in transcribeLargeAudioFile:
audioFileName.replace(.mp3, empty) + _transcript.txt. -/
def transcriptFileName (audioFileName : String) : String :=
  replaceFirst audioFileName ".mp3" "" ++ "_transcript.txt"

/-- The summary artifact name derived in transcribeLargeAudioFile:
audioFileName.replace(.mp3, empty) + _summary.txt. -/
def summaryFileName (audioFileName : String) : String :=
  replaceFirst audioFileName ".mp3" "" ++ "_summary.txt"

/-- The segment-scanning while-loop of transcribeLargeAudioFile in
src/transcribe.ts.  fs tells which segment indices currently have a file on
disk, oracle gives the result the transcription backend returns for a given
segment (none models the catch branch of transcribeSmallAudioFile, which
logs and returns undefined).  Faithful to the source, the loop checks
existence of the current file, transcribes it, and on an undefined result
logs and continues WITHOUT having incremented the index, because the
increment sits at the end of the loop body after the append; on success it
appends the text plus a blank line and increments.  The loop exits normally
at the first index whose file does not exist, returning the aggregated
transcription, the list of indices processed in order, and the error lines
logged.  Fuel exhaustion returns none and models non-termination. -/
def scanLoop (fs : Nat → Bool) (oracle : Nat → Option String) :
    Nat → Nat → String → List Nat → List String → Option (String × List Nat × List String)
  | 0, _, _, _, _ => none
  | fuel + 1, i, agg, tr, errs =>
    if fs i then
      match oracle i with
      | none =>
        scanLoop fs oracle fuel i agg (tr ++ [i])
          (errs ++ ["Failed to transcribe \"" ++ segmentFileName i ++ "\""])
      | some t =>
        scanLoop fs oracle fuel (i + 1) (agg ++ t ++ "\n\n") (tr ++ [i]) errs
    else some (agg, tr, errs)

/-- cleanupAudioChunks from src/transcribe.ts: starting at index 0, delete
the segment file while one exists at the current index, then stop at the
first missing index.  The function returns the filesystem after the
deletions; fuel exhaustion (none) models the loop never finding a gap. -/
def cleanupAudioChunks (fs : Nat → Bool) : Nat → Nat → Option (Nat → Bool)
  | 0, _ => none
  | fuel + 1, i =>
    if fs i then
      cleanupAudioChunks (fun j => if j = i then false else fs j) fuel (i + 1)
    else some fs

/-- Observable result of one transcribeLargeAudioFile call that returned:
the indices scanned, the aggregated transcript, the error lines logged, the
segment filesystem after cleanup, the transcript and summary files written
(name and content), whether the chat-completion backend was invoked, and the
message of an uncaught exception if one was thrown. -/
structure RunResult where
  processed : List Nat
  aggregated : String
  errors : List String
  fsAfter : Nat → Bool
  transcriptFile : Option (String × String)
  summaryCalled : Bool
  summaryFile : Option (String × String)
  crashMsg : Option String

/-- transcribeLargeAudioFile from src/transcribe.ts, after the external
splitAudioFile call: fs is the segment filesystem ffmpeg left behind, oracle
the transcription backend, summaryResponse the text the chat backend would
return.  The function scans the segments, deletes the chunks, returns early
(writing nothing) when the aggregated transcription is empty, otherwise
writes the transcript wrapped at 80 columns, and when the summarize flag is
set resolves the model alias (an unknown alias throws before the backend is
called) and writes the wrapped summary.  A thrown TypeError from
splitStringIntoLines (null match) aborts the call at that point with the
artifacts written so far.  none models a non-terminating segment scan. -/
def transcribeLargeAudioFile (fuel : Nat) (fs : Nat → Bool) (oracle : Nat → Option String)
    (summarize : Bool) (gptModel : String) (summaryResponse : String)
    (audioFileName : String) : Option RunResult :=
  match scanLoop fs oracle fuel 0 "" [] [] with
  | none => none
  | some (agg, tr, errs) =>
    match cleanupAudioChunks fs fuel 0 with
    | none => none
    | some fs2 =>
      if agg = "" then
        some { processed := tr, aggregated := agg
               errors := errs ++ ["No transcriptions were processed"]
               fsAfter := fs2, transcriptFile := none
               summaryCalled := false, summaryFile := none, crashMsg := none }
      else
        match splitStringIntoLines agg 80 with
        | none =>
          some { processed := tr, aggregated := agg, errors := errs
                 fsAfter := fs2, transcriptFile := none
                 summaryCalled := false, summaryFile := none
                 crashMsg := some "TypeError: null is not an object" }
        | some wrapped =>
          if summarize then
            match getChatModelFromString gptModel with
            | Except.error e =>
              some { processed := tr, aggregated := agg, errors := errs
                     fsAfter := fs2
                     transcriptFile := some (transcriptFileName audioFileName, wrapped)
                     summaryCalled := false, summaryFile := none, crashMsg := some e }
            | Except.ok _ =>
              match splitStringIntoLines summaryResponse 80 with
              | none =>
                some { processed := tr, aggregated := agg, errors := errs
                       fsAfter := fs2
                       transcriptFile := some (transcriptFileName audioFileName, wrapped)
                       summaryCalled := true, summaryFile := none
                       crashMsg := some "TypeError: null is not an object" }
              | some wrappedSummary =>
                some { processed := tr, aggregated := agg, errors := errs
                       fsAfter := fs2
                       transcriptFile := some (transcriptFileName audioFileName, wrapped)
                       summaryCalled := true
                       summaryFile := some (summaryFileName audioFileName, wrappedSummary)
                       crashMsg := none }
          else
            some { processed := tr, aggregated := agg, errors := errs
                   fsAfter := fs2
                   transcriptFile := some (transcriptFileName audioFileName, wrapped)
                   summaryCalled := false, summaryFile := none, crashMsg := none }

/-- JavaScript String.prototype.startsWith, character-wise. -/
def jsStartsWith (s pre : String) : Bool :=
  pre.data.isPrefixOf s.data

/-- JavaScript String.prototype.endsWith, character-wise. -/
def jsEndsWith (s suf : String) : Bool :=
  suf.data.isSuffixOf s.data

/-- The two pipeline entry points main can dispatch an input to. -/
inductive PipelineCall where
  | download : PipelineCall
  | transcribe : PipelineCall

/-- The per-input classification in main of src/transcribe.ts: a string
starting with the YouTube URL prefix is dispatched to
downloadAudioFromYouTube, otherwise a string ending in .mp3 is dispatched to
transcribeLargeAudioFile, otherwise only an invalid-input line is logged and
nothing is invoked, so no artifact can be produced for that input. -/
def routeInput (fileNameOrUrl : String) : Option PipelineCall :=
  if jsStartsWith fileNameOrUrl "https://www.youtube.com/" then some PipelineCall.download
  else if jsEndsWith fileNameOrUrl ".mp3" then some PipelineCall.transcribe
  else none

/-- A single greedy match consumes a prefix: prefix and rest rebuild the
input. -/
theorem matchOne_append (k : Nat) (s : List Char) :
    (matchOne k s).1 ++ (matchOne k s).2 = s := by
  induction s generalizing k with
  | nil => cases k <;> rfl
  | cons c cs ih =>
    cases k with
    | zero => rfl
    | succ k =>
      by_cases h : jsDot c = true
      · simp [matchOne, h, ih]
      · simp [matchOne, h]

/-- The rest after a single greedy match is no longer than the input. -/
theorem matchOne_snd_length (k : Nat) (s : List Char) :
    (matchOne k s).2.length ≤ s.length := by
  conv_rhs => rw [← matchOne_append k s]
  rw [List.length_append]
  omega

/-- With enough fuel, the global matches of the wrapping regex concatenate
back to the input whenever every character of the input is dot-matchable. -/
theorem jsGlobalMatchAux_join (n : Nat) :
    ∀ (fuel : Nat) (s : List Char), s.length ≤ fuel →
      (∀ c ∈ s, jsDot c = true) → (jsGlobalMatchAux n fuel s).flatten = s := by
  intro fuel
  induction fuel with
  | zero =>
    intro s hl _
    have hs : s = [] := List.eq_nil_of_length_eq_zero (Nat.le_zero.mp hl)
    subst hs; rfl
  | succ f ih =>
    intro s hl hdot
    cases s with
    | nil => rfl
    | cons c cs =>
      have hc : jsDot c = true := hdot c (List.mem_cons_self c cs)
      have hrest : (matchOne (n - 1) cs).2.length ≤ f := by
        have h1 := matchOne_snd_length (n - 1) cs
        have h2 : cs.length ≤ f := by simpa using hl
        omega
      have hmem : ∀ x ∈ (matchOne (n - 1) cs).2, jsDot x = true := by
        intro x hx
        apply hdot
        apply List.mem_cons_of_mem
        rw [← matchOne_append (n - 1) cs]
        exact List.mem_append_right _ hx
      simp only [jsGlobalMatchAux, hc, if_true, List.flatten_cons]
      rw [ih _ hrest hmem]
      simp [matchOne_append]

/-- With enough fuel, the global match yields no match at all exactly when
no character of the input is dot-matchable. -/
theorem jsGlobalMatchAux_eq_nil_iff (n : Nat) :
    ∀ (fuel : Nat) (s : List Char), s.length ≤ fuel →
      (jsGlobalMatchAux n fuel s = [] ↔ ∀ c ∈ s, jsDot c = false) := by
  intro fuel
  induction fuel with
  | zero =>
    intro s hl
    have hs : s = [] := List.eq_nil_of_length_eq_zero (Nat.le_zero.mp hl)
    subst hs; simp [jsGlobalMatchAux]
  | succ f ih =>
    intro s hl
    cases s with
    | nil => simp [jsGlobalMatchAux]
    | cons c cs =>
      by_cases hc : jsDot c = true
      · simp only [jsGlobalMatchAux, hc, if_true]
        constructor
        · intro h; exact absurd h (by simp)
        · intro h
          have := h c (List.mem_cons_self c cs)
          rw [hc] at this
          exact absurd this (by simp)
      · have hcf : jsDot c = false := by simpa using hc
        simp only [jsGlobalMatchAux, hcf, if_false, Bool.false_eq_true]
        rw [ih cs (by simpa using Nat.lt_succ_iff.mp (Nat.lt_succ_of_le (by simpa using hl)))]
        constructor
        · intro h x hx
          rcases List.mem_cons.mp hx with rfl | hx2
          · exact hcf
          · exact h x hx2
        · intro h x hx; exact h x (List.mem_cons_of_mem c hx)

/-- Folding string concatenation over packed character lists concatenates
the underlying lists. -/
theorem foldl_append_map_mk (ls : List (List Char)) :
    ∀ acc : String,
      List.foldl (fun r s => r ++ s) acc (ls.map String.mk) =
        String.mk (acc.data ++ ls.flatten) := by
  induction ls with
  | nil =>
    intro acc
    simp only [List.map_nil, List.foldl_nil, List.flatten_nil, List.append_nil]
  | cons l ls ih =>
    intro acc
    simp only [List.map_cons, List.foldl_cons]
    rw [ih]
    simp [List.append_assoc]

/-- String.join of packed character lists packs the flattening. -/
theorem string_join_map_mk (ls : List (List Char)) :
    String.join (ls.map String.mk) = String.mk ls.flatten := by
  rw [String.join, foldl_append_map_mk]
  rfl

/-- C2 counterexample: on the input holding the two characters a and b
separated by a newline, at width 80, the wrapper produces the lines a and b
(the regex dot skips the newline of the input), so concatenating the
produced lines gives ab, not the original input: the round-trip fails for
inputs that contain newline characters. -/
theorem lineWrapper_roundTrip_cex :
    wrappedLines "a\nb" 80 = some ["a", "b"] ∧ String.join ["a", "b"] ≠ "a\nb" := by
  constructor
  · decide
  · decide

/-- C2 (amended): for a positive width and a non-empty input none of whose
characters is a line terminator, the wrapper returns normally and
concatenating the produced lines reproduces the input exactly. -/
theorem lineWrapper_roundTrip (s : String) (n : Nat) (hn : 0 < n) (hne : s ≠ "")
    (hdot : ∀ c ∈ s.data, jsDot c = true) :
    ∃ L, wrappedLines s n = some L ∧ L ≠ [] ∧ String.join L = s := by
  have hdata : s.data ≠ [] := by
    intro h
    apply hne
    cases s with
    | mk d => simp only at h; subst h; rfl
  have hnil : jsGlobalMatch n s.data ≠ [] := by
    rw [Ne, jsGlobalMatch, jsGlobalMatchAux_eq_nil_iff n s.data.length s.data le_rfl]
    intro h
    cases hd : s.data with
    | nil => exact hdata hd
    | cons c cs =>
      have h1 := h c (by rw [hd]; exact List.mem_cons_self c cs)
      have h2 := hdot c (by rw [hd]; exact List.mem_cons_self c cs)
      rw [h1] at h2
      exact absurd h2 (by simp)
  cases hm : jsGlobalMatch n s.data with
  | nil => exact absurd hm hnil
  | cons l rest =>
    refine ⟨(l :: rest).map String.mk, ?_, by simp, ?_⟩
    · rw [wrappedLines, hm]
    · rw [string_join_map_mk]
      have hj : (jsGlobalMatchAux n s.data.length s.data).flatten = s.data :=
        jsGlobalMatchAux_join n s.data.length s.data le_rfl hdot
      rw [jsGlobalMatch] at hm
      rw [hm] at hj
      rw [hj]

/-- C2 witness: the amended round-trip at the concrete input abcde with
width 2, where the wrapper yields the lines ab, cd, e. -/
theorem lineWrapper_roundTrip_witness :
    ∃ L, wrappedLines "abcde" 2 = some L ∧ L ≠ [] ∧ String.join L = "abcde" :=
  lineWrapper_roundTrip "abcde" 2 (by decide) (by decide) (by decide)

/-- C9 counterexample: the one-character input consisting of a single
newline is non-empty, yet the match yields no result and the wrapper throws,
so the wrapper does not return normally on every non-empty input. -/
theorem splitStringIntoLines_newline_cex :
    ("\n" : String) ≠ "" ∧ splitStringIntoLines "\n" 80 = none := by
  constructor
  · decide
  · decide

/-- C9 (amended): splitStringIntoLines raises (match returns null and join
throws) exactly when no character of the input is matchable by the regex
dot, that is when the input consists entirely of line terminators; the
empty string is the particular case of an empty character list, and any
input with at least one non-line-terminator character returns normally. -/
theorem splitStringIntoLines_none_iff (s : String) (n : Nat) :
    splitStringIntoLines s n = none ↔ ∀ c ∈ s.data, jsDot c = false := by
  rw [← jsGlobalMatchAux_eq_nil_iff n s.data.length s.data le_rfl]
  rw [splitStringIntoLines, wrappedLines]
  rw [show jsGlobalMatch n s.data = jsGlobalMatchAux n s.data.length s.data from rfl]
  cases jsGlobalMatchAux n s.data.length s.data with
  | nil => simp
  | cons l rest => simp

/-- Lowercasing a character twice is the same as lowercasing it once: the
image of Char.toLower contains no basic latin capital. -/
theorem charToLower_idem (c : Char) : c.toLower.toLower = c.toLower := by
  by_cases h : c.toNat ≥ 65 ∧ c.toNat ≤ 90
  · have hc : c.toLower = Char.ofNat (c.toNat + 32) := by
      simp [Char.toLower, h]
    rw [hc]
    obtain ⟨h1, h2⟩ := h
    generalize hgen : c.toNat = u
    rw [hgen] at h1 h2
    interval_cases u <;> decide
  · have hc : c.toLower = c := by
      simp [Char.toLower, h]
    rw [hc]
    exact hc

/-- Lowercasing a string twice is the same as lowercasing it once. -/
theorem toLowerCase_idem (s : String) : toLowerCase (toLowerCase s) = toLowerCase s := by
  simp [toLowerCase, List.map_map, Function.comp_def, charToLower_idem]

/-- The switch of getChatModelFromString written as a chain of equality
tests on the lowercased alias. -/
theorem getChatModelFromString_eq_ite (s : String) :
    getChatModelFromString s =
      if toLowerCase s = "gpt3_5" then Except.ok ChatModel.GPT3_5
      else if toLowerCase s = "gpt4" then Except.ok ChatModel.GPT4
      else Except.error ("Unsupported GPT model \"" ++ s ++ "\"") := by
  rw [getChatModelFromString.eq_def]
  split
  next h => simp [h]
  next h => simp [h]
  next h h2 => rw [if_neg h, if_neg h2]

/-- C3 counterexample: the input GPT4 is neither of the supported aliases
gpt3_5 and gpt4, yet the resolver returns the GPT4 backend identifier
instead of raising, because it lowercases its input before the switch; so
it is not the case that every input other than the two aliases raises. -/
theorem getChatModel_strictAlias_cex :
    getChatModelFromString "GPT4" = Except.ok ChatModel.GPT4 ∧
    ("GPT4" : String) ≠ "gpt3_5" ∧ ("GPT4" : String) ≠ "gpt4" := by
  refine ⟨rfl, by decide, by decide⟩

/-- C3 (amended): the resolver maps the alias gpt3_5 to gpt-3.5-turbo and
the alias gpt4 to gpt-4, and it raises the unsupported-model error if and
only if the lowercased input is not one of the two supported aliases (so
any capitalisation of a supported alias also resolves, rather than
raising). -/
theorem getChatModel_resolution (s : String) :
    getChatModelFromString "gpt3_5" = Except.ok ChatModel.GPT3_5 ∧
    getChatModelFromString "gpt4" = Except.ok ChatModel.GPT4 ∧
    ChatModel.GPT3_5.value = "gpt-3.5-turbo" ∧
    ChatModel.GPT4.value = "gpt-4" ∧
    (getChatModelFromString s = Except.error ("Unsupported GPT model \"" ++ s ++ "\"") ↔
      ¬(toLowerCase s = "gpt3_5" ∨ toLowerCase s = "gpt4")) := by
  refine ⟨rfl, rfl, rfl, rfl, ?_⟩
  rw [getChatModelFromString_eq_ite]
  by_cases h1 : toLowerCase s = "gpt3_5"
  · simp [h1]
  · by_cases h2 : toLowerCase s = "gpt4"
    · simp [h1, h2]
    · simp [h1, h2]

/-- C10 counterexample: resolving ABC and resolving its lowercase form abc
both raise, but the raised errors are different values, because the thrown
message quotes the original, non-lowercased input; so resolving s does not
always produce the same result as resolving the lowercase form of s. -/
theorem getChatModel_caseMessage_cex :
    getChatModelFromString "ABC" = Except.error "Unsupported GPT model \"ABC\"" ∧
    toLowerCase "ABC" = "abc" ∧
    getChatModelFromString "abc" = Except.error "Unsupported GPT model \"abc\"" ∧
    getChatModelFromString "ABC" ≠ getChatModelFromString "abc" := by
  refine ⟨rfl, rfl, rfl, ?_⟩
  intro h
  rw [show getChatModelFromString "ABC" =
        Except.error "Unsupported GPT model \"ABC\"" from rfl,
      show getChatModelFromString "abc" =
        Except.error "Unsupported GPT model \"abc\"" from rfl] at h
  injection h with h2
  exact absurd h2 (by decide)

/-- C10 (amended): resolving s succeeds with a given canonical identifier
exactly when resolving the lowercase form of s succeeds with that same
identifier (for example GPT4 and gpt4 both resolve to the GPT4 backend
identifier), and resolving s raises exactly when resolving the lowercase
form raises; the raised errors however each quote their own input, so on
failure the two error messages agree only up to the quoted spelling. -/
theorem getChatModel_caseInsensitive (s : String) :
    (∀ m, getChatModelFromString s = Except.ok m ↔
        getChatModelFromString (toLowerCase s) = Except.ok m) ∧
    (getChatModelFromString s = Except.error ("Unsupported GPT model \"" ++ s ++ "\"") ↔
      getChatModelFromString (toLowerCase s) =
        Except.error ("Unsupported GPT model \"" ++ toLowerCase s ++ "\"")) := by
  rw [getChatModelFromString_eq_ite s, getChatModelFromString_eq_ite (toLowerCase s),
      toLowerCase_idem]
  by_cases h1 : toLowerCase s = "gpt3_5"
  · simp [h1]
  · by_cases h2 : toLowerCase s = "gpt4"
    · simp [h1, h2]
    · simp [h1, h2]

/-- A segment whose file exists and whose transcription persistently fails
pins the scanning loop: the continue statement in the loop body of
transcribeLargeAudioFile skips the index increment, which only happens at
the end of the body after the append, so the loop re-tests the same
existing file, fails again, and never advances; no amount of fuel makes
the loop return. -/
theorem scanLoop_stuck (fs : Nat → Bool) (oracle : Nat → Option String) (i : Nat)
    (hfs : fs i = true) (horc : oracle i = none) :
    ∀ (fuel : Nat) (agg : String) (tr : List Nat) (errs : List String),
      scanLoop fs oracle fuel i agg tr errs = none := by
  intro fuel
  induction fuel with
  | zero => intro agg tr errs; rfl
  | succ f ih =>
    intro agg tr errs
    simp only [scanLoop, hfs, horc, if_true]
    exact ih agg (tr ++ [i]) (errs ++ ["Failed to transcribe \"" ++ segmentFileName i ++ "\""])

/-- C1: in the scenario of the claim, segment files 000 and 001 exist,
segment 000 transcribes to Hello world and segment 001 always fails; the
claimed behavior is that the failure is skipped, aggregation terminates and
talk_transcript.txt is persisted with Hello world and a blank line.  The
code instead retries segment 001 forever, because continue skips the index
increment placed at the end of the loop body, so the run never returns for
any fuel and in particular never writes a transcript file. -/
theorem talkScenario_neverPersists (fuel : Nat) :
    transcribeLargeAudioFile fuel (fun i => decide (i < 2))
      (fun i => if i = 0 then some "Hello world" else none)
      true "gpt3_5" "A summary" "talk.mp3" = none := by
  have hs : scanLoop (fun i => decide (i < 2))
      (fun i => if i = 0 then some "Hello world" else none) fuel 0 "" [] [] = none := by
    cases fuel with
    | zero => rfl
    | succ f =>
      rw [show scanLoop (fun i => decide (i < 2))
            (fun i => if i = 0 then some "Hello world" else none) (f + 1) 0 "" [] [] =
          scanLoop (fun i => decide (i < 2))
            (fun i => if i = 0 then some "Hello world" else none) f 1
            "Hello world\n\n" [0] [] from rfl]
      exact scanLoop_stuck _ _ 1 (by decide) (by decide) f _ _ _
  unfold transcribeLargeAudioFile
  rw [hs]

/-- C4: with segment files 000 and 001 present, a gap at index 2, and a
backend that fails on every segment, the claimed behavior is that the scan
processes exactly segments 0 and 1 and then stops at the gap; the code
instead retries segment 0 forever (continue skips the index increment), so
the scan never terminates, never reaches segment 1 and never reaches the
gap, for any fuel. -/
theorem gapScan_allFail_neverTerminates (fuel : Nat) :
    scanLoop (fun i => decide (i < 2)) (fun _ => none) fuel 0 "" [] [] = none :=
  scanLoop_stuck (fun i => decide (i < 2)) (fun _ => none) 0 (by decide) rfl fuel "" [] []

/-- Generalised cleanup correctness: starting at index i with exactly k
consecutive existing files and a gap after them, the deletion loop
terminates, deletes precisely those k files and touches nothing else. -/
theorem cleanupAudioChunks_go (k : Nat) :
    ∀ (fs : Nat → Bool) (i fuel : Nat),
      (∀ j, i ≤ j → j < i + k → fs j = true) → fs (i + k) = false → k < fuel →
      ∃ fs2, cleanupAudioChunks fs fuel i = some fs2 ∧
        (∀ j, i ≤ j → j < i + k → fs2 j = false) ∧
        (∀ j, j < i ∨ i + k ≤ j → fs2 j = fs j) := by
  induction k with
  | zero =>
    intro fs i fuel hbelow hgap hfuel
    obtain ⟨f, rfl⟩ : ∃ f, fuel = f + 1 := ⟨fuel - 1, by omega⟩
    refine ⟨fs, ?_, ?_, ?_⟩
    · have hg : fs i = false := by simpa using hgap
      simp [cleanupAudioChunks, hg]
    · intro j h1 h2; omega
    · intro j _; rfl
  | succ k ih =>
    intro fs i fuel hbelow hgap hfuel
    obtain ⟨f, rfl⟩ : ∃ f, fuel = f + 1 := ⟨fuel - 1, by omega⟩
    have hfi : fs i = true := hbelow i le_rfl (by omega)
    have step : cleanupAudioChunks fs (f + 1) i =
        cleanupAudioChunks (fun j => if j = i then false else fs j) f (i + 1) := by
      simp [cleanupAudioChunks, hfi]
    obtain ⟨fs2, h1, h2, h3⟩ := ih (fun j => if j = i then false else fs j) (i + 1) f
      (by
        intro j hj1 hj2
        have hne : j ≠ i := by omega
        simp only [hne, if_false]
        exact hbelow j (by omega) (by omega))
      (by
        have hne : i + 1 + k ≠ i := by omega
        simp only [hne, if_false]
        rw [show i + 1 + k = i + (k + 1) from by omega]
        exact hgap)
      (by omega)
    refine ⟨fs2, by rw [step]; exact h1, ?_, ?_⟩
    · intro j hj1 hj2
      by_cases hji : j = i
      · subst hji
        rw [h3 j (Or.inl (by omega))]
        simp
      · exact h2 j (by omega) (by omega)
    · intro j hj
      have hne : j ≠ i := by omega
      rcases hj with hj | hj
      · rw [h3 j (Or.inl (by omega))]; simp [hne]
      · rw [h3 j (Or.inr (by omega))]; simp [hne]

/-- C5: when the segment files are exactly those below the first missing
index n (and the deletion loop is given enough fuel to reach the gap, which
a finite directory always provides), cleanupAudioChunks terminates, every
segment file below n is deleted (regardless of which transcriptions
succeeded, since the loop never consults them), indices at or above the gap
are untouched, and with no segment files at all (n equal to zero) it
returns successfully deleting nothing. -/
theorem cleanupAudioChunks_correct (fs : Nat → Bool) (n fuel : Nat)
    (hbelow : ∀ j, j < n → fs j = true) (hgap : fs n = false) (hfuel : n < fuel) :
    ∃ fs2, cleanupAudioChunks fs fuel 0 = some fs2 ∧
      (∀ j, j < n → fs2 j = false) ∧ (∀ j, n ≤ j → fs2 j = fs j) := by
  obtain ⟨fs2, h1, h2, h3⟩ := cleanupAudioChunks_go n fs 0 fuel
    (by intro j hj1 hj2; exact hbelow j (by omega)) (by simpa using hgap) hfuel
  exact ⟨fs2, h1, fun j hj => h2 j (by omega) (by omega),
    fun j hj => h3 j (Or.inr (by omega))⟩

/-- C5 witness: two segment files (indices 0 and 1), gap at 2, fuel 3: the
cleanup succeeds, deletes both files and leaves the rest of the directory
unchanged. -/
theorem cleanupAudioChunks_witness :
    ∃ fs2, cleanupAudioChunks (fun j => decide (j < 2)) 3 0 = some fs2 ∧
      (∀ j, j < 2 → fs2 j = false) ∧ (∀ j, 2 ≤ j → fs2 j = decide (j < 2)) :=
  cleanupAudioChunks_correct (fun j => decide (j < 2)) 2 3
    (fun j hj => decide_eq_true hj) (by decide) (by decide)

/-- C6: whenever a run of transcribeLargeAudioFile returns and its
aggregated transcript is the empty string (all segments scanned, nothing
appended), the run logged the error line, wrote no transcript file, never
invoked the chat-completion backend and wrote no summary file: the early
return fires before any artifact is produced. -/
theorem emptyTranscript_noArtifacts (fuel : Nat) (fs : Nat → Bool)
    (oracle : Nat → Option String) (summarize : Bool)
    (gptModel summaryResponse audioFileName : String) (res : RunResult)
    (h : transcribeLargeAudioFile fuel fs oracle summarize gptModel summaryResponse
        audioFileName = some res)
    (hempty : res.aggregated = "") :
    res.transcriptFile = none ∧ res.summaryCalled = false ∧ res.summaryFile = none ∧
    "No transcriptions were processed" ∈ res.errors := by
  unfold transcribeLargeAudioFile at h
  repeat' split at h
  any_goals exact Option.noConfusion h
  all_goals rw [Option.some.injEq] at h
  all_goals subst h
  all_goals simp_all

/-- C6 witness: ffmpeg produced no segments at all (empty directory); the
run terminates with an empty aggregate, logs the error and leaves neither a
transcript nor a summary, although summarization was requested. -/
theorem emptyTranscript_noArtifacts_witness :
    ∃ res, transcribeLargeAudioFile 1 (fun _ => false) (fun _ => none) true "gpt3_5"
        "A summary" "talk.mp3" = some res ∧
      (res.transcriptFile = none ∧ res.summaryCalled = false ∧ res.summaryFile = none ∧
        "No transcriptions were processed" ∈ res.errors) :=
  ⟨_, rfl, emptyTranscript_noArtifacts 1 (fun _ => false) (fun _ => none) true "gpt3_5"
    "A summary" "talk.mp3" _ rfl rfl⟩

/-- C8: a run of transcribeLargeAudioFile with the summarize flag false
never invokes the chat-completion backend and never writes a summary file,
whatever the segments, the backend results or the transcript content; the
only artifact it can write is the transcript file. -/
theorem summarizeFalse_noSummary (fuel : Nat) (fs : Nat → Bool)
    (oracle : Nat → Option String) (gptModel summaryResponse audioFileName : String)
    (res : RunResult)
    (h : transcribeLargeAudioFile fuel fs oracle false gptModel summaryResponse
        audioFileName = some res) :
    res.summaryCalled = false ∧ res.summaryFile = none := by
  unfold transcribeLargeAudioFile at h
  repeat' split at h
  any_goals exact Option.noConfusion h
  all_goals rw [Option.some.injEq] at h
  all_goals subst h
  all_goals simp_all

/-- C8 witness: one segment transcribing to Hello, summarize flag false:
the run writes the transcript file and indeed neither calls the summary
backend nor writes a summary file. -/
theorem summarizeFalse_noSummary_witness :
    ∃ res, transcribeLargeAudioFile 2 (fun i => decide (i < 1)) (fun _ => some "Hello")
        false "gpt3_5" "A summary" "talk.mp3" = some res ∧
      (res.summaryCalled = false ∧ res.summaryFile = none ∧
        res.transcriptFile = some ("talk_transcript.txt", "Hello")) :=
  ⟨_, rfl, And.intro
    (summarizeFalse_noSummary 2 (fun i => decide (i < 1)) (fun _ => some "Hello")
      "gpt3_5" "A summary" "talk.mp3" _ rfl).1
    (And.intro
      (summarizeFalse_noSummary 2 (fun i => decide (i < 1)) (fun _ => some "Hello")
        "gpt3_5" "A summary" "talk.mp3" _ rfl).2
      rfl)⟩

/-- C7: main classifies each input by first testing the YouTube URL prefix
(such an input is dispatched to the downloader even when it also ends in
.mp3), then the .mp3 suffix (dispatched to the local transcription
pipeline), and otherwise dispatches nothing: only the invalid-input error
is logged, no pipeline runs and no artifact can be produced. -/
theorem inputRouter_classification (s : String) :
    (jsStartsWith s "https://www.youtube.com/" = true →
      routeInput s = some PipelineCall.download) ∧
    (jsStartsWith s "https://www.youtube.com/" = false → jsEndsWith s ".mp3" = true →
      routeInput s = some PipelineCall.transcribe) ∧
    (jsStartsWith s "https://www.youtube.com/" = false → jsEndsWith s ".mp3" = false →
      routeInput s = none) := by
  refine ⟨fun h1 => ?_, fun h1 h2 => ?_, fun h1 h2 => ?_⟩
  · simp [routeInput, h1]
  · simp [routeInput, h1, h2]
  · simp [routeInput, h1, h2]

/-- C7 witness: a YouTube link that also ends in .mp3 goes to the
downloader, a local .mp3 path goes to the transcriber, and notes.pdf is
dispatched nowhere. -/
theorem inputRouter_classification_witness :
    routeInput "https://www.youtube.com/watch?v=abc.mp3" = some PipelineCall.download ∧
    routeInput "talk.mp3" = some PipelineCall.transcribe ∧
    routeInput "notes.pdf" = none :=
  ⟨(inputRouter_classification "https://www.youtube.com/watch?v=abc.mp3").1 (by decide),
   (inputRouter_classification "talk.mp3").2.1 (by decide) (by decide),
   (inputRouter_classification "notes.pdf").2.2 (by decide) (by decide)⟩
